import Mathlib

/-
Verification of the generation core of the mcp-google-vertex server.

The embedding models src/google-genai.ts (GoogleGenAIService):
  - image and video option records and their validators,
  - the video polling loop (generateVideo) with an idealized clock in
    which each sleep advances elapsed time by exactly the poll interval
    and checks and refreshes are instantaneous,
  - the per-item conversion of provider results into binary buffers
    (Buffer.from(bytes, "base64") is modeled by decodeBase64).

JavaScript numbers are modeled by the rationals; thrown errors are
modeled by Except String with the exact message strings of the source.
The remote provider is modeled as data (ProviderBehavior): the operation
returned by the submission call and the stream of snapshots returned by
successive getVideosOperation calls.
-/

namespace MCPVertex

/-- Value of one base64 alphabet character, as in the standard alphabet
used by Buffer.from(s, "base64"); characters outside the alphabet
(including padding) are ignored by the forgiving Node decoder. -/
def base64Val (c : Char) : Option Nat :=
  if 65 ≤ c.toNat ∧ c.toNat ≤ 90 then some (c.toNat - 65)
  else if 97 ≤ c.toNat ∧ c.toNat ≤ 122 then some (c.toNat - 97 + 26)
  else if 48 ≤ c.toNat ∧ c.toNat ≤ 57 then some (c.toNat - 48 + 52)
  else if c = '+' then some 62
  else if c = '/' then some 63
  else none

/-- Decode a stream of 6-bit values into bytes, four values to three
bytes, with the usual truncated final group handling. -/
def decodeBase64Core : List Nat → List Nat
  | a :: b :: c :: d :: rest =>
      (a * 4 + b / 16) :: ((b % 16) * 16 + c / 4) :: ((c % 4) * 64 + d)
        :: decodeBase64Core rest
  | [a, b, c] => [a * 4 + b / 16, (b % 16) * 16 + c / 4]
  | [a, b] => [a * 4 + b / 16]
  | [_] => []
  | [] => []

/-- Model of Buffer.from(s, "base64"): a byte list. -/
def decodeBase64 (s : String) : List Nat :=
  decodeBase64Core (s.data.filterMap base64Val)

/-- Model of the JS String.prototype.trim call: strip leading and
trailing whitespace. -/
def jsTrim (s : String) : String :=
  ⟨((s.data.dropWhile Char.isWhitespace).reverse.dropWhile Char.isWhitespace).reverse⟩

/-- ImageGenerationOptions from src/google-genai.ts.  Only fields that
influence control flow are given structure; the aspect ratio field of the
source is named aspect here.  Numeric fields are rationals (JS numbers). -/
structure ImageGenerationOptions where
  aspect : Option String := none
  numberOfImages : Option ℚ := none
  negativePrompt : Option String := none
  guidanceScale : Option ℚ := none
  seed : Option ℚ := none
  outputMimeType : Option String := none
  outputCompressionQuality : Option ℚ := none
  imageSize : Option String := none
  enhancePrompt : Option Bool := none
  outputGcsUri : Option String := none
deriving DecidableEq

/-- VideoGenerationOptions from src/google-genai.ts.  The aspect ratio
field of the source is named aspect here. -/
structure VideoGenerationOptions where
  numberOfVideos : Option ℚ := none
  durationSeconds : Option ℚ := none
  aspect : Option String := none
  resolution : Option String := none
  fps : Option ℚ := none
  seed : Option ℚ := none
  negativePrompt : Option String := none
  enhancePrompt : Option Bool := none
  generateAudio : Option Bool := none
  personGeneration : Option String := none
  outputGcsUri : Option String := none
deriving DecidableEq

/-- Model of the JS test v < lo || v > hi. -/
def outOfRange (v lo hi : ℚ) : Bool :=
  decide (v < lo) || decide (hi < v)

/-- Model of the JS test x !== undefined && (x < lo || x > hi). -/
def outOfRangeOpt (x : Option ℚ) (lo hi : ℚ) : Bool :=
  match x with
  | none => false
  | some v => outOfRange v lo hi

def validImageAspects : List String := ["1:1", "3:4", "4:3", "9:16", "16:9"]

def validImageMimeTypes : List String := ["image/jpeg", "image/png"]

/-- GoogleGenAIService.validateImageOptions, with the destructuring
defaults of the source (numberOfImages = 1, outputCompressionQuality = 85,
aspect ratio = 1:1, outputMimeType = image/jpeg). -/
def validateImageOptions (o : ImageGenerationOptions) : Except String Unit :=
  let numberOfImages := o.numberOfImages.getD 1
  let outputCompressionQuality := o.outputCompressionQuality.getD 85
  let aspect := o.aspect.getD "1:1"
  let outputMimeType := o.outputMimeType.getD "image/jpeg"
  if outOfRange numberOfImages 1 8 then
    .error "numberOfImages must be between 1 and 8"
  else if outOfRangeOpt o.guidanceScale 1 20 then
    .error "guidanceScale must be between 1 and 20"
  else if outOfRange outputCompressionQuality 1 100 then
    .error "outputCompressionQuality must be between 1 and 100"
  else if !(validImageAspects.contains aspect) then
    .error ("aspectRatio must be one of: " ++ String.intercalate ", " validImageAspects)
  else if !(validImageMimeTypes.contains outputMimeType) then
    .error ("outputMimeType must be one of: " ++ String.intercalate ", " validImageMimeTypes)
  else .ok ()

def validVideoAspects : List String := ["16:9", "9:16"]

def validResolutions : List String := ["720p", "1080p"]

/-- GoogleGenAIService.validateVideoOptions, with the destructuring
defaults of the source (numberOfVideos = 1, durationSeconds = 5,
aspect ratio = 16:9, resolution = 720p). -/
def validateVideoOptions (o : VideoGenerationOptions) : Except String Unit :=
  let numberOfVideos := o.numberOfVideos.getD 1
  let durationSeconds := o.durationSeconds.getD 5
  let aspect := o.aspect.getD "16:9"
  let resolution := o.resolution.getD "720p"
  if outOfRange numberOfVideos 1 4 then
    .error "numberOfVideos must be between 1 and 4"
  else if outOfRange durationSeconds 2 10 then
    .error "durationSeconds must be between 2 and 10"
  else if outOfRangeOpt o.fps 8 30 then
    .error "fps must be between 8 and 30"
  else if !(validVideoAspects.contains aspect) then
    .error ("aspectRatio must be one of: " ++ String.intercalate ", " validVideoAspects)
  else if !(validResolutions.contains resolution) then
    .error ("resolution must be one of: " ++ String.intercalate ", " validResolutions)
  else .ok ()

/-- Model of the video field of a generated video result item: an
optional remote-storage URI and optional inline base64 bytes. -/
structure VideoData where
  uri : Option String := none
  videoBytes : Option String := none
deriving DecidableEq

/-- One item of the video result set (generatedVideos element). -/
structure GeneratedVideo where
  video : Option VideoData := none
deriving DecidableEq

/-- The response payload of a completed video operation. -/
structure VideoResponse where
  generatedVideos : Option (List GeneratedVideo) := none
deriving DecidableEq

/-- The provider operation snapshot (name, done, error, response,
metadata).  The JS done field is an optional boolean read under
truthiness, so undefined collapses to false; the error field is modeled
by its JSON.stringify rendering. -/
structure VideosOperation where
  name : Option String := none
  done : Bool := false
  error : Option String := none
  response : Option VideoResponse := none
  metadata : Option String := none
deriving DecidableEq

/-- The remote provider as seen by generateVideo: the operation returned
by models.generateVideos, and the snapshot returned by the k-th
operations.getVideosOperation call (k counted from 0). -/
structure ProviderBehavior where
  submitResult : VideosOperation
  refresh : Nat → VideosOperation

/-- maxWaitTime of the source: 10 * 60 * 1000 ms. -/
def maxWaitTime : Nat := 10 * 60 * 1000

/-- pollInterval of the source: 15 * 1000 ms. -/
def pollInterval : Nat := 15 * 1000

instance instDecidableEqExcept {ε α : Type} [DecidableEq ε] [DecidableEq α] :
    DecidableEq (Except ε α) := fun a b =>
  match a, b with
  | .error x, .error y =>
      if h : x = y then .isTrue (by rw [h]) else .isFalse (by simp [h])
  | .error _, .ok _ => .isFalse (by simp)
  | .ok _, .error _ => .isFalse (by simp)
  | .ok x, .ok y =>
      if h : x = y then .isTrue (by rw [h]) else .isFalse (by simp [h])

/-- Observable trace of one run of the polling loop: its outcome (the
final done snapshot, or the thrown message), the number of
getVideosOperation calls, the number of sleeps, and the elapsed time at
which each refresh was issued. -/
structure PollTrace where
  outcome : Except String VideosOperation
  refreshes : Nat
  sleeps : Nat
  refreshTimes : List Nat
deriving DecidableEq

/-- The while (!operation.done) loop of generateVideo.  elapsed is the
idealized wall-clock time since loop entry (each sleep advances it by
pollInterval); k counts the refreshes already performed.  The fuel
argument only makes the recursion structural: pollLoop_fuel_stable below
shows that any fuel above maxWaitTime / pollInterval + 2 gives the same
trace, so the fuel-exhausted branch is unreachable from the entry state. -/
def pollLoop (refresh : Nat → VideosOperation) :
    Nat → VideosOperation → Nat → Nat → PollTrace
  | 0, _, _, _ =>
      { outcome := .error "poll fuel exhausted", refreshes := 0, sleeps := 0,
        refreshTimes := [] }
  | fuel + 1, op, elapsed, k =>
      if op.done then
        { outcome := .ok op, refreshes := 0, sleeps := 0, refreshTimes := [] }
      else if maxWaitTime < elapsed then
        { outcome := .error "Video generation timed out after 10 minutes",
          refreshes := 0, sleeps := 0, refreshTimes := [] }
      else
        match op.name with
        | some _ =>
            let rest := pollLoop refresh fuel (refresh k) (elapsed + pollInterval) (k + 1)
            { outcome := rest.outcome, refreshes := rest.refreshes + 1,
              sleeps := rest.sleeps + 1,
              refreshTimes := (elapsed + pollInterval) :: rest.refreshTimes }
        | none =>
            { outcome := .error "Operation name is not available for polling",
              refreshes := 0, sleeps := 1, refreshTimes := [] }

/-- Fuel with which the loop is actually run; 42 iterations always
suffice because the timeout check fires at the latest on the 42nd entry. -/
def pollFuel : Nat := maxWaitTime / pollInterval + 2

/-- The polling loop as entered by generateVideo: fresh submission
snapshot, elapsed time 0, no refreshes performed yet. -/
def runPollLoop (env : ProviderBehavior) : PollTrace :=
  pollLoop env.refresh pollFuel env.submitResult 0 0

/-- The body of the for loop over generatedVideos: items without a video
field are skipped; an item whose video carries a uri reaches
downloadGcsFile, which always throws; otherwise inline videoBytes are
decoded and collected, and items without videoBytes are skipped. -/
def collectVideoBuffers : List GeneratedVideo → Except String (List (List Nat))
  | [] => .ok []
  | gv :: rest =>
      match gv.video with
      | none => collectVideoBuffers rest
      | some vd =>
          match vd.uri with
          | some u =>
              .error ("GCS file download not implemented. Cannot download from " ++ u)
          | none =>
              match vd.videoBytes with
              | some b =>
                  Except.map (fun bufs => decodeBase64 b :: bufs) (collectVideoBuffers rest)
              | none => collectVideoBuffers rest

/-- Classification of the final done operation snapshot: the error field
is checked first (throwing the provider error, already prefixed once
inside the try body), then the result set is extracted and an absent or
empty set throws; finally the items are converted and an empty buffer
list throws. -/
def finishVideoOperation (op : VideosOperation) : Except String (List (List Nat)) :=
  match op.error with
  | some details => .error ("Video generation failed: " ++ details)
  | none =>
      match Option.bind op.response VideoResponse.generatedVideos with
      | none => .error "No videos were generated"
      | some vids =>
          if vids.length = 0 then .error "No videos were generated"
          else
            match collectVideoBuffers vids with
            | .error e => .error e
            | .ok bufs =>
                if bufs.length = 0 then
                  .error "No valid video data was found in the response"
                else .ok bufs

/-- Result of one generateVideo call: the returned buffers or the thrown
message, plus how many submission calls, refreshes and sleeps the call
performed and at which elapsed times it refreshed. -/
structure VideoGenResult where
  result : Except String (List (List Nat))
  submitCalls : Nat
  refreshes : Nat
  sleeps : Nat
  refreshTimes : List Nat
deriving DecidableEq

/-- The try body of generateVideo after validation: submit, poll, then
classify; every message thrown inside the try block is rethrown wrapped
in the Video generation failed prefix by the catch block. -/
def runVideoRequest (env : ProviderBehavior) : VideoGenResult :=
  let trace := runPollLoop env
  match trace.outcome with
  | .error e =>
      { result := .error ("Video generation failed: " ++ e), submitCalls := 1,
        refreshes := trace.refreshes, sleeps := trace.sleeps,
        refreshTimes := trace.refreshTimes }
  | .ok op =>
      match finishVideoOperation op with
      | .error e =>
          { result := .error ("Video generation failed: " ++ e), submitCalls := 1,
            refreshes := trace.refreshes, sleeps := trace.sleeps,
            refreshTimes := trace.refreshTimes }
      | .ok bufs =>
          { result := .ok bufs, submitCalls := 1, refreshes := trace.refreshes,
            sleeps := trace.sleeps, refreshTimes := trace.refreshTimes }

/-- GoogleGenAIService.generateVideo: prompt emptiness check, prompt
length check, option validation (all before the network call), then the
submission and the polling loop. -/
def generateVideo (env : ProviderBehavior) (prompt : String)
    (o : VideoGenerationOptions) : VideoGenResult :=
  if (jsTrim prompt).length = 0 then
    { result := .error "Prompt is required and must be a non-empty string",
      submitCalls := 0, refreshes := 0, sleeps := 0, refreshTimes := [] }
  else if 1000 < prompt.length then
    { result := .error "Prompt must be less than 1000 characters for video generation",
      submitCalls := 0, refreshes := 0, sleeps := 0, refreshTimes := [] }
  else
    match validateVideoOptions o with
    | .error e =>
        { result := .error e, submitCalls := 0, refreshes := 0, sleeps := 0,
          refreshTimes := [] }
    | .ok _ => runVideoRequest env

/-- Model of the image field of a generated image result item. -/
structure ImageData where
  gcsUri : Option String := none
  imageBytes : Option String := none
deriving DecidableEq

/-- One item of the image result set (generatedImages element). -/
structure GeneratedImage where
  image : Option ImageData := none
deriving DecidableEq

/-- The remote provider as seen by generateImage: the generatedImages
field of the response of models.generateImages. -/
structure ImageEnv where
  generatedImages : Option (List GeneratedImage)
deriving DecidableEq

/-- The body of the for loop over generatedImages: items without an
image field are skipped; an item whose image carries a gcsUri throws
immediately; otherwise inline imageBytes are decoded and collected, and
items without imageBytes are skipped. -/
def collectImageBuffers : List GeneratedImage → Except String (List (List Nat))
  | [] => .ok []
  | gi :: rest =>
      match gi.image with
      | none => collectImageBuffers rest
      | some d =>
          match d.gcsUri with
          | some _ =>
              .error "GCS URI handling not implemented. Please avoid using outputGcsUri."
          | none =>
              match d.imageBytes with
              | some b =>
                  Except.map (fun bufs => decodeBase64 b :: bufs) (collectImageBuffers rest)
              | none => collectImageBuffers rest

/-- Result of one generateImage call: the returned buffers or the thrown
message, plus whether the submission network call was made. -/
structure ImageGenResult where
  result : Except String (List (List Nat))
  submitCalls : Nat
deriving DecidableEq

/-- The try body of generateImage after validation; messages thrown
inside the try block are rethrown wrapped in the Image generation failed
prefix by the catch block. -/
def runImageRequest (env : ImageEnv) : ImageGenResult :=
  match env.generatedImages with
  | none => { result := .error "Image generation failed: No images were generated", submitCalls := 1 }
  | some imgs =>
      if imgs.length = 0 then
        { result := .error "Image generation failed: No images were generated", submitCalls := 1 }
      else
        match collectImageBuffers imgs with
        | .error e => { result := .error ("Image generation failed: " ++ e), submitCalls := 1 }
        | .ok bufs =>
            if bufs.length = 0 then
              { result := .error "Image generation failed: No valid image data was found in the response",
                submitCalls := 1 }
            else { result := .ok bufs, submitCalls := 1 }

/-- GoogleGenAIService.generateImage: prompt emptiness check, prompt
length check, option validation (all before the network call), then the
submission. -/
def generateImage (env : ImageEnv) (prompt : String)
    (o : ImageGenerationOptions) : ImageGenResult :=
  if (jsTrim prompt).length = 0 then
    { result := .error "Prompt is required and must be a non-empty string", submitCalls := 0 }
  else if 4000 < prompt.length then
    { result := .error "Prompt must be less than 4000 characters", submitCalls := 0 }
  else
    match validateImageOptions o with
    | .error e => { result := .error e, submitCalls := 0 }
    | .ok _ => runImageRequest env

section Fixtures

/-- A named, not-yet-done operation snapshot. -/
def stalledOp : VideosOperation := { name := some "operations/videos/stalled" }

/-- Provider that never finishes: every snapshot is stalledOp. -/
def stalledEnv : ProviderBehavior := { submitResult := stalledOp, refresh := fun _ => stalledOp }

/-- A video result item carrying only a remote-storage locator. -/
def uriOnlyVideo : GeneratedVideo :=
  { video := some { uri := some "gs://bucket/video.mp4" } }

/-- A video result item carrying valid inline base64 bytes. -/
def inlineVideo : GeneratedVideo := { video := some { videoBytes := some "AAAA" } }

/-- A done operation whose result set holds one uri-only item and one
inline-bytes item (Scenario D of the specification). -/
def scenarioDOp : VideosOperation :=
  { name := some "operations/videos/d", done := true,
    response := some { generatedVideos := some [uriOnlyVideo, inlineVideo] } }

/-- Provider already done at submission with the Scenario D result set. -/
def scenarioDEnv : ProviderBehavior :=
  { submitResult := scenarioDOp, refresh := fun _ => scenarioDOp }

/-- A done operation with a single inline-bytes item. -/
def doneInlineOp : VideosOperation :=
  { name := some "operations/videos/a", done := true,
    response := some { generatedVideos := some [inlineVideo] } }

/-- Provider whose first refresh is still stalled and whose second
refresh is done with one inline item. -/
def twoStepEnv : ProviderBehavior :=
  { submitResult := stalledOp, refresh := fun n => if n = 0 then stalledOp else doneInlineOp }

/-- A done operation carrying a populated provider error. -/
def erroredOp : VideosOperation :=
  { name := some "operations/videos/b", done := true, error := some "quota exceeded" }

/-- Provider already done at submission with a populated error field. -/
def erroredEnv : ProviderBehavior :=
  { submitResult := erroredOp, refresh := fun _ => erroredOp }

/-- A not-done snapshot with no name to poll. -/
def namelessOp : VideosOperation := {}

/-- Provider whose submission result has no referenceable name. -/
def namelessEnv : ProviderBehavior :=
  { submitResult := namelessOp, refresh := fun _ => stalledOp }

/-- Provider whose 41st refreshed snapshot (index 40) loses its name
while still not done; every earlier snapshot is stalled but named. -/
def lateNamelessEnv : ProviderBehavior :=
  { submitResult := stalledOp, refresh := fun n => if n = 40 then namelessOp else stalledOp }

/-- An image result item carrying only a remote-storage locator. -/
def gcsImage : GeneratedImage := { image := some { gcsUri := some "gs://bucket/image.png" } }

/-- An image result item carrying valid inline base64 bytes. -/
def inlineImage : GeneratedImage := { image := some { imageBytes := some "AAAA" } }

end Fixtures

section RangeLemmas

theorem outOfRange_false {v lo hi : ℚ} :
    outOfRange v lo hi = false ↔ lo ≤ v ∧ v ≤ hi := by
  simp [outOfRange, not_lt]

theorem outOfRange_true {v lo hi : ℚ} :
    outOfRange v lo hi = true ↔ (v < lo ∨ hi < v) := by
  simp [outOfRange]

theorem outOfRangeOpt_false {x : Option ℚ} {lo hi : ℚ} :
    outOfRangeOpt x lo hi = false ↔ ∀ v, x = some v → lo ≤ v ∧ v ≤ hi := by
  cases x <;> simp [outOfRangeOpt, outOfRange_false]

theorem outOfRangeOpt_true {x : Option ℚ} {lo hi : ℚ} :
    outOfRangeOpt x lo hi = true ↔ ∃ v, x = some v ∧ (v < lo ∨ hi < v) := by
  cases x <;> simp [outOfRangeOpt, outOfRange_true]

end RangeLemmas

section PollLoopLemmas

theorem pollLoop_done (refresh : Nat → VideosOperation) (fuel : Nat)
    (op : VideosOperation) (elapsed k : Nat) (h : op.done = true) :
    pollLoop refresh (fuel + 1) op elapsed k =
      { outcome := .ok op, refreshes := 0, sleeps := 0, refreshTimes := [] } := by
  simp [pollLoop, h]

theorem pollLoop_timeout (refresh : Nat → VideosOperation) (fuel : Nat)
    (op : VideosOperation) (elapsed k : Nat) (h : op.done = false)
    (ht : maxWaitTime < elapsed) :
    pollLoop refresh (fuel + 1) op elapsed k =
      { outcome := .error "Video generation timed out after 10 minutes",
        refreshes := 0, sleeps := 0, refreshTimes := [] } := by
  simp [pollLoop, h, ht]

theorem pollLoop_step (refresh : Nat → VideosOperation) (fuel : Nat)
    (op : VideosOperation) (elapsed k : Nat) (nm : String) (h : op.done = false)
    (ht : ¬ maxWaitTime < elapsed) (hn : op.name = some nm) :
    pollLoop refresh (fuel + 1) op elapsed k =
      { outcome := (pollLoop refresh fuel (refresh k) (elapsed + pollInterval) (k + 1)).outcome,
        refreshes := (pollLoop refresh fuel (refresh k) (elapsed + pollInterval) (k + 1)).refreshes + 1,
        sleeps := (pollLoop refresh fuel (refresh k) (elapsed + pollInterval) (k + 1)).sleeps + 1,
        refreshTimes := (elapsed + pollInterval)
          :: (pollLoop refresh fuel (refresh k) (elapsed + pollInterval) (k + 1)).refreshTimes } := by
  simp [pollLoop, h, ht, hn]

theorem pollLoop_lost (refresh : Nat → VideosOperation) (fuel : Nat)
    (op : VideosOperation) (elapsed k : Nat) (h : op.done = false)
    (ht : ¬ maxWaitTime < elapsed) (hn : op.name = none) :
    pollLoop refresh (fuel + 1) op elapsed k =
      { outcome := .error "Operation name is not available for polling",
        refreshes := 0, sleeps := 1, refreshTimes := [] } := by
  simp [pollLoop, h, ht, hn]

/-- Fuel stability: once the fuel covers the time left before the
timeout ceiling, adding more fuel does not change the trace.  This shows
the fuel-exhausted branch of pollLoop is unreachable from runPollLoop. -/
theorem pollLoop_fuel_stable (refresh : Nat → VideosOperation) :
    ∀ (f : Nat) (op : VideosOperation) (elapsed k : Nat),
      maxWaitTime < elapsed + f * pollInterval →
      pollLoop refresh (f + 1) op elapsed k = pollLoop refresh (f + 2) op elapsed k := by
  intro f
  induction f with
  | zero =>
      intro op elapsed k h
      simp only [Nat.zero_mul, Nat.add_zero] at h
      cases hd : op.done with
      | true => rw [pollLoop_done refresh 0 op elapsed k hd,
                    pollLoop_done refresh 1 op elapsed k hd]
      | false => rw [pollLoop_timeout refresh 0 op elapsed k hd h,
                     pollLoop_timeout refresh 1 op elapsed k hd h]
  | succ f ih =>
      intro op elapsed k h
      cases hd : op.done with
      | true => rw [pollLoop_done refresh (f + 1) op elapsed k hd,
                    pollLoop_done refresh (f + 2) op elapsed k hd]
      | false =>
        by_cases ht : maxWaitTime < elapsed
        · rw [pollLoop_timeout refresh (f + 1) op elapsed k hd ht,
              pollLoop_timeout refresh (f + 2) op elapsed k hd ht]
        · cases hn : op.name with
          | none => rw [pollLoop_lost refresh (f + 1) op elapsed k hd ht hn,
                        pollLoop_lost refresh (f + 2) op elapsed k hd ht hn]
          | some nm =>
              have hrec : maxWaitTime < (elapsed + pollInterval) + f * pollInterval := by
                have : elapsed + (f + 1) * pollInterval
                    = (elapsed + pollInterval) + f * pollInterval := by ring
                rw [← this]; exact h
              rw [pollLoop_step refresh (f + 1) op elapsed k nm hd ht hn,
                  pollLoop_step refresh (f + 2) op elapsed k nm hd ht hn,
                  ih (refresh k) (elapsed + pollInterval) (k + 1) hrec]

/-- Any fuel above pollFuel produces the trace of runPollLoop. -/
theorem pollLoop_fuel_sufficient (refresh : Nat → VideosOperation)
    (op : VideosOperation) :
    ∀ d : Nat, pollLoop refresh (pollFuel + d) op 0 0 = pollLoop refresh pollFuel op 0 0 := by
  intro d
  induction d with
  | zero => rfl
  | succ d ih =>
      have hcond : maxWaitTime < 0 + (41 + d) * pollInterval := by
        simp [maxWaitTime, pollInterval]
        omega
      have hstep := pollLoop_fuel_stable refresh (41 + d) op 0 0 hcond
      have h1 : pollFuel + (d + 1) = (41 + d) + 2 := by
        simp [pollFuel, maxWaitTime, pollInterval]
        omega
      have h2 : pollFuel + d = (41 + d) + 1 := by
        simp [pollFuel, maxWaitTime, pollInterval]
        omega
      rw [h1, ← hstep, ← h2, ih]

end PollLoopLemmas

section FacadeLemmas

theorem generateVideo_validated (env : ProviderBehavior) (prompt : String)
    (o : VideoGenerationOptions) (hp : (jsTrim prompt).length ≠ 0)
    (hl : prompt.length ≤ 1000) (hv : validateVideoOptions o = .ok ()) :
    generateVideo env prompt o = runVideoRequest env := by
  unfold generateVideo
  rw [if_neg hp, if_neg (by omega), hv]

theorem generateImage_validated (env : ImageEnv) (prompt : String)
    (o : ImageGenerationOptions) (hp : (jsTrim prompt).length ≠ 0)
    (hl : prompt.length ≤ 4000) (hv : validateImageOptions o = .ok ()) :
    generateImage env prompt o = runImageRequest env := by
  unfold generateImage
  rw [if_neg hp, if_neg (by omega), hv]

end FacadeLemmas

section VideoValidatorLemmas

theorem vvo_ok {o : VideoGenerationOptions}
    (hc1 : 1 ≤ o.numberOfVideos.getD 1) (hc2 : o.numberOfVideos.getD 1 ≤ 4)
    (hc3 : 2 ≤ o.durationSeconds.getD 5) (hc4 : o.durationSeconds.getD 5 ≤ 10)
    (hc5 : ∀ f, o.fps = some f → 8 ≤ f ∧ f ≤ 30)
    (hc6 : o.aspect.getD "16:9" = "16:9" ∨ o.aspect.getD "16:9" = "9:16")
    (hc7 : o.resolution.getD "720p" = "720p" ∨ o.resolution.getD "720p" = "1080p") :
    validateVideoOptions o = .ok () := by
  have e1 : outOfRange (o.numberOfVideos.getD 1) 1 4 = false :=
    outOfRange_false.mpr ⟨hc1, hc2⟩
  have e2 : outOfRange (o.durationSeconds.getD 5) 2 10 = false :=
    outOfRange_false.mpr ⟨hc3, hc4⟩
  have e3 : outOfRangeOpt o.fps 8 30 = false := outOfRangeOpt_false.mpr hc5
  have m4 : o.aspect.getD "16:9" ∈ validVideoAspects := by
    rcases hc6 with h | h <;> simp [validVideoAspects, h]
  have m5 : o.resolution.getD "720p" ∈ validResolutions := by
    rcases hc7 with h | h <;> simp [validResolutions, h]
  simp [validateVideoOptions, e1, e2, e3, m4, m5]

theorem vvo_err_count {o : VideoGenerationOptions}
    (h : o.numberOfVideos.getD 1 < 1 ∨ 4 < o.numberOfVideos.getD 1) :
    validateVideoOptions o = .error "numberOfVideos must be between 1 and 4" := by
  have e1 : outOfRange (o.numberOfVideos.getD 1) 1 4 = true := outOfRange_true.mpr h
  simp [validateVideoOptions, e1]

theorem vvo_err_duration {o : VideoGenerationOptions}
    (hn1 : 1 ≤ o.numberOfVideos.getD 1) (hn2 : o.numberOfVideos.getD 1 ≤ 4)
    (hd : o.durationSeconds.getD 5 < 2 ∨ 10 < o.durationSeconds.getD 5) :
    validateVideoOptions o = .error "durationSeconds must be between 2 and 10" := by
  have e1 : outOfRange (o.numberOfVideos.getD 1) 1 4 = false :=
    outOfRange_false.mpr ⟨hn1, hn2⟩
  have e2 : outOfRange (o.durationSeconds.getD 5) 2 10 = true := outOfRange_true.mpr hd
  simp [validateVideoOptions, e1, e2]

theorem vvo_err_fps {o : VideoGenerationOptions}
    (hn1 : 1 ≤ o.numberOfVideos.getD 1) (hn2 : o.numberOfVideos.getD 1 ≤ 4)
    (hd1 : 2 ≤ o.durationSeconds.getD 5) (hd2 : o.durationSeconds.getD 5 ≤ 10)
    (hf : ∃ f, o.fps = some f ∧ (f < 8 ∨ 30 < f)) :
    validateVideoOptions o = .error "fps must be between 8 and 30" := by
  have e1 : outOfRange (o.numberOfVideos.getD 1) 1 4 = false :=
    outOfRange_false.mpr ⟨hn1, hn2⟩
  have e2 : outOfRange (o.durationSeconds.getD 5) 2 10 = false :=
    outOfRange_false.mpr ⟨hd1, hd2⟩
  have e3 : outOfRangeOpt o.fps 8 30 = true := outOfRangeOpt_true.mpr hf
  simp [validateVideoOptions, e1, e2, e3]

theorem vvo_err_aspect {o : VideoGenerationOptions}
    (hn1 : 1 ≤ o.numberOfVideos.getD 1) (hn2 : o.numberOfVideos.getD 1 ≤ 4)
    (hd1 : 2 ≤ o.durationSeconds.getD 5) (hd2 : o.durationSeconds.getD 5 ≤ 10)
    (hf : ∀ f, o.fps = some f → 8 ≤ f ∧ f ≤ 30)
    (ha : ¬(o.aspect.getD "16:9" = "16:9" ∨ o.aspect.getD "16:9" = "9:16")) :
    validateVideoOptions o = .error "aspectRatio must be one of: 16:9, 9:16" := by
  have e1 : outOfRange (o.numberOfVideos.getD 1) 1 4 = false :=
    outOfRange_false.mpr ⟨hn1, hn2⟩
  have e2 : outOfRange (o.durationSeconds.getD 5) 2 10 = false :=
    outOfRange_false.mpr ⟨hd1, hd2⟩
  have e3 : outOfRangeOpt o.fps 8 30 = false := outOfRangeOpt_false.mpr hf
  have m4 : o.aspect.getD "16:9" ∉ validVideoAspects := by
    push_neg at ha
    simp [validVideoAspects]
    exact ha
  simp [validateVideoOptions, e1, e2, e3, m4]
  try rfl

theorem vvo_err_res {o : VideoGenerationOptions}
    (hn1 : 1 ≤ o.numberOfVideos.getD 1) (hn2 : o.numberOfVideos.getD 1 ≤ 4)
    (hd1 : 2 ≤ o.durationSeconds.getD 5) (hd2 : o.durationSeconds.getD 5 ≤ 10)
    (hf : ∀ f, o.fps = some f → 8 ≤ f ∧ f ≤ 30)
    (ha : o.aspect.getD "16:9" = "16:9" ∨ o.aspect.getD "16:9" = "9:16")
    (hr : ¬(o.resolution.getD "720p" = "720p" ∨ o.resolution.getD "720p" = "1080p")) :
    validateVideoOptions o = .error "resolution must be one of: 720p, 1080p" := by
  have e1 : outOfRange (o.numberOfVideos.getD 1) 1 4 = false :=
    outOfRange_false.mpr ⟨hn1, hn2⟩
  have e2 : outOfRange (o.durationSeconds.getD 5) 2 10 = false :=
    outOfRange_false.mpr ⟨hd1, hd2⟩
  have e3 : outOfRangeOpt o.fps 8 30 = false := outOfRangeOpt_false.mpr hf
  have m4 : o.aspect.getD "16:9" ∈ validVideoAspects := by
    rcases ha with h | h <;> simp [validVideoAspects, h]
  have m5 : o.resolution.getD "720p" ∉ validResolutions := by
    push_neg at hr
    simp [validResolutions]
    exact hr
  simp [validateVideoOptions, e1, e2, e3, m4, m5]
  try rfl

end VideoValidatorLemmas

/-- Claim C3: validateVideoOptions succeeds exactly when the (defaulted)
count lies in 1..4, the duration in 2..10 seconds, the frame rate when
present in 8..30, the aspect ratio is 16:9 or 9:16 and the resolution is
720p or 1080p; each individually violated rule yields the error naming
that field and its valid range. -/
theorem C3_validateVideoOptions_characterization (o : VideoGenerationOptions) :
    (validateVideoOptions o = .ok () ↔
      (1 ≤ o.numberOfVideos.getD 1 ∧ o.numberOfVideos.getD 1 ≤ 4 ∧
       2 ≤ o.durationSeconds.getD 5 ∧ o.durationSeconds.getD 5 ≤ 10 ∧
       (∀ f, o.fps = some f → 8 ≤ f ∧ f ≤ 30) ∧
       (o.aspect.getD "16:9" = "16:9" ∨ o.aspect.getD "16:9" = "9:16") ∧
       (o.resolution.getD "720p" = "720p" ∨ o.resolution.getD "720p" = "1080p"))) ∧
    ((o.numberOfVideos.getD 1 < 1 ∨ 4 < o.numberOfVideos.getD 1) →
      validateVideoOptions o = .error "numberOfVideos must be between 1 and 4") ∧
    (1 ≤ o.numberOfVideos.getD 1 → o.numberOfVideos.getD 1 ≤ 4 →
     (o.durationSeconds.getD 5 < 2 ∨ 10 < o.durationSeconds.getD 5) →
      validateVideoOptions o = .error "durationSeconds must be between 2 and 10") ∧
    (1 ≤ o.numberOfVideos.getD 1 → o.numberOfVideos.getD 1 ≤ 4 →
     2 ≤ o.durationSeconds.getD 5 → o.durationSeconds.getD 5 ≤ 10 →
     (∃ f, o.fps = some f ∧ (f < 8 ∨ 30 < f)) →
      validateVideoOptions o = .error "fps must be between 8 and 30") ∧
    (1 ≤ o.numberOfVideos.getD 1 → o.numberOfVideos.getD 1 ≤ 4 →
     2 ≤ o.durationSeconds.getD 5 → o.durationSeconds.getD 5 ≤ 10 →
     (∀ f, o.fps = some f → 8 ≤ f ∧ f ≤ 30) →
     ¬(o.aspect.getD "16:9" = "16:9" ∨ o.aspect.getD "16:9" = "9:16") →
      validateVideoOptions o = .error "aspectRatio must be one of: 16:9, 9:16") ∧
    (1 ≤ o.numberOfVideos.getD 1 → o.numberOfVideos.getD 1 ≤ 4 →
     2 ≤ o.durationSeconds.getD 5 → o.durationSeconds.getD 5 ≤ 10 →
     (∀ f, o.fps = some f → 8 ≤ f ∧ f ≤ 30) →
     (o.aspect.getD "16:9" = "16:9" ∨ o.aspect.getD "16:9" = "9:16") →
     ¬(o.resolution.getD "720p" = "720p" ∨ o.resolution.getD "720p" = "1080p") →
      validateVideoOptions o = .error "resolution must be one of: 720p, 1080p") := by
  refine ⟨?_, fun h => vvo_err_count h,
    fun h1 h2 h3 => vvo_err_duration h1 h2 h3,
    fun h1 h2 h3 h4 h5 => vvo_err_fps h1 h2 h3 h4 h5,
    fun h1 h2 h3 h4 h5 h6 => vvo_err_aspect h1 h2 h3 h4 h5 h6,
    fun h1 h2 h3 h4 h5 h6 h7 => vvo_err_res h1 h2 h3 h4 h5 h6 h7⟩
  constructor
  · intro h
    by_cases c1 : 1 ≤ o.numberOfVideos.getD 1 ∧ o.numberOfVideos.getD 1 ≤ 4
    case neg =>
      have hv : o.numberOfVideos.getD 1 < 1 ∨ 4 < o.numberOfVideos.getD 1 := by
        rcases not_and_or.mp c1 with hx | hx
        exacts [Or.inl (not_le.mp hx), Or.inr (not_le.mp hx)]
      rw [vvo_err_count hv] at h
      simp at h
    by_cases c2 : 2 ≤ o.durationSeconds.getD 5 ∧ o.durationSeconds.getD 5 ≤ 10
    case neg =>
      have hv : o.durationSeconds.getD 5 < 2 ∨ 10 < o.durationSeconds.getD 5 := by
        rcases not_and_or.mp c2 with hx | hx
        exacts [Or.inl (not_le.mp hx), Or.inr (not_le.mp hx)]
      rw [vvo_err_duration c1.1 c1.2 hv] at h
      simp at h
    by_cases c3 : ∀ f, o.fps = some f → 8 ≤ f ∧ f ≤ 30
    case neg =>
      have hv : ∃ f, o.fps = some f ∧ (f < 8 ∨ 30 < f) := by
        rcases not_forall.mp c3 with ⟨f, hf⟩
        rcases Classical.not_imp.mp hf with ⟨hsome, hrange⟩
        refine ⟨f, hsome, ?_⟩
        rcases not_and_or.mp hrange with hx | hx
        exacts [Or.inl (not_le.mp hx), Or.inr (not_le.mp hx)]
      rw [vvo_err_fps c1.1 c1.2 c2.1 c2.2 hv] at h
      simp at h
    by_cases c4 : o.aspect.getD "16:9" = "16:9" ∨ o.aspect.getD "16:9" = "9:16"
    case neg =>
      rw [vvo_err_aspect c1.1 c1.2 c2.1 c2.2 c3 c4] at h
      simp at h
    by_cases c5 : o.resolution.getD "720p" = "720p" ∨ o.resolution.getD "720p" = "1080p"
    case neg =>
      rw [vvo_err_res c1.1 c1.2 c2.1 c2.2 c3 c4 c5] at h
      simp at h
    exact ⟨c1.1, c1.2, c2.1, c2.2, c3, c4, c5⟩
  · rintro ⟨hc1, hc2, hc3, hc4, hc5, hc6, hc7⟩
    exact vvo_ok hc1 hc2 hc3 hc4 hc5 hc6 hc7

/-- Witness for claim C3 at a concrete input: a record with a zero count
fails naming numberOfVideos and its valid range. -/
theorem C3_witness :
    validateVideoOptions { numberOfVideos := some 0 }
      = .error "numberOfVideos must be between 1 and 4" :=
  (C3_validateVideoOptions_characterization { numberOfVideos := some 0 }).2.1
    (by norm_num)

section ImageValidatorLemmas

theorem vio_ok {o : ImageGenerationOptions}
    (hc1 : 1 ≤ o.numberOfImages.getD 1) (hc2 : o.numberOfImages.getD 1 ≤ 8)
    (hc3 : ∀ g, o.guidanceScale = some g → 1 ≤ g ∧ g ≤ 20)
    (hc4 : 1 ≤ o.outputCompressionQuality.getD 85)
    (hc5 : o.outputCompressionQuality.getD 85 ≤ 100)
    (hc6 : o.aspect.getD "1:1" ∈ validImageAspects)
    (hc7 : o.outputMimeType.getD "image/jpeg" = "image/jpeg" ∨
           o.outputMimeType.getD "image/jpeg" = "image/png") :
    validateImageOptions o = .ok () := by
  have e1 : outOfRange (o.numberOfImages.getD 1) 1 8 = false :=
    outOfRange_false.mpr ⟨hc1, hc2⟩
  have e2 : outOfRangeOpt o.guidanceScale 1 20 = false := outOfRangeOpt_false.mpr hc3
  have e3 : outOfRange (o.outputCompressionQuality.getD 85) 1 100 = false :=
    outOfRange_false.mpr ⟨hc4, hc5⟩
  have m5 : o.outputMimeType.getD "image/jpeg" ∈ validImageMimeTypes := by
    rcases hc7 with h | h <;> simp [validImageMimeTypes, h]
  simp [validateImageOptions, e1, e2, e3, hc6, m5]

theorem vio_err_count {o : ImageGenerationOptions}
    (h : o.numberOfImages.getD 1 < 1 ∨ 8 < o.numberOfImages.getD 1) :
    validateImageOptions o = .error "numberOfImages must be between 1 and 8" := by
  have e1 : outOfRange (o.numberOfImages.getD 1) 1 8 = true := outOfRange_true.mpr h
  simp [validateImageOptions, e1]

theorem vio_err_guidance {o : ImageGenerationOptions}
    (hn1 : 1 ≤ o.numberOfImages.getD 1) (hn2 : o.numberOfImages.getD 1 ≤ 8)
    (hg : ∃ g, o.guidanceScale = some g ∧ (g < 1 ∨ 20 < g)) :
    validateImageOptions o = .error "guidanceScale must be between 1 and 20" := by
  have e1 : outOfRange (o.numberOfImages.getD 1) 1 8 = false :=
    outOfRange_false.mpr ⟨hn1, hn2⟩
  have e2 : outOfRangeOpt o.guidanceScale 1 20 = true := outOfRangeOpt_true.mpr hg
  simp [validateImageOptions, e1, e2]

theorem vio_err_quality {o : ImageGenerationOptions}
    (hn1 : 1 ≤ o.numberOfImages.getD 1) (hn2 : o.numberOfImages.getD 1 ≤ 8)
    (hg : ∀ g, o.guidanceScale = some g → 1 ≤ g ∧ g ≤ 20)
    (hq : o.outputCompressionQuality.getD 85 < 1 ∨ 100 < o.outputCompressionQuality.getD 85) :
    validateImageOptions o = .error "outputCompressionQuality must be between 1 and 100" := by
  have e1 : outOfRange (o.numberOfImages.getD 1) 1 8 = false :=
    outOfRange_false.mpr ⟨hn1, hn2⟩
  have e2 : outOfRangeOpt o.guidanceScale 1 20 = false := outOfRangeOpt_false.mpr hg
  have e3 : outOfRange (o.outputCompressionQuality.getD 85) 1 100 = true :=
    outOfRange_true.mpr hq
  simp [validateImageOptions, e1, e2, e3]

theorem vio_err_aspect {o : ImageGenerationOptions}
    (hn1 : 1 ≤ o.numberOfImages.getD 1) (hn2 : o.numberOfImages.getD 1 ≤ 8)
    (hg : ∀ g, o.guidanceScale = some g → 1 ≤ g ∧ g ≤ 20)
    (hq1 : 1 ≤ o.outputCompressionQuality.getD 85)
    (hq2 : o.outputCompressionQuality.getD 85 ≤ 100)
    (ha : o.aspect.getD "1:1" ∉ validImageAspects) :
    validateImageOptions o
      = .error "aspectRatio must be one of: 1:1, 3:4, 4:3, 9:16, 16:9" := by
  have e1 : outOfRange (o.numberOfImages.getD 1) 1 8 = false :=
    outOfRange_false.mpr ⟨hn1, hn2⟩
  have e2 : outOfRangeOpt o.guidanceScale 1 20 = false := outOfRangeOpt_false.mpr hg
  have e3 : outOfRange (o.outputCompressionQuality.getD 85) 1 100 = false :=
    outOfRange_false.mpr ⟨hq1, hq2⟩
  simp [validateImageOptions, e1, e2, e3, ha]
  try rfl

theorem vio_err_mime {o : ImageGenerationOptions}
    (hn1 : 1 ≤ o.numberOfImages.getD 1) (hn2 : o.numberOfImages.getD 1 ≤ 8)
    (hg : ∀ g, o.guidanceScale = some g → 1 ≤ g ∧ g ≤ 20)
    (hq1 : 1 ≤ o.outputCompressionQuality.getD 85)
    (hq2 : o.outputCompressionQuality.getD 85 ≤ 100)
    (ha : o.aspect.getD "1:1" ∈ validImageAspects)
    (hm : ¬(o.outputMimeType.getD "image/jpeg" = "image/jpeg" ∨
            o.outputMimeType.getD "image/jpeg" = "image/png")) :
    validateImageOptions o
      = .error "outputMimeType must be one of: image/jpeg, image/png" := by
  have e1 : outOfRange (o.numberOfImages.getD 1) 1 8 = false :=
    outOfRange_false.mpr ⟨hn1, hn2⟩
  have e2 : outOfRangeOpt o.guidanceScale 1 20 = false := outOfRangeOpt_false.mpr hg
  have e3 : outOfRange (o.outputCompressionQuality.getD 85) 1 100 = false :=
    outOfRange_false.mpr ⟨hq1, hq2⟩
  have m5 : o.outputMimeType.getD "image/jpeg" ∉ validImageMimeTypes := by
    push_neg at hm
    simp [validImageMimeTypes]
    exact hm
  simp [validateImageOptions, e1, e2, e3, ha, m5]
  try rfl

end ImageValidatorLemmas

/-- Claim C4: validateImageOptions succeeds exactly when the (defaulted)
count lies in 1..8, the guidance scale when present in 1..20, the
compression quality in 1..100, the aspect ratio is one of the five valid
ratios and the output MIME type is image/jpeg or image/png; validation
is fail-fast, reporting the first violated rule in source order with the
offending field and its valid range. -/
theorem C4_validateImageOptions_characterization (o : ImageGenerationOptions) :
    (validateImageOptions o = .ok () ↔
      (1 ≤ o.numberOfImages.getD 1 ∧ o.numberOfImages.getD 1 ≤ 8 ∧
       (∀ g, o.guidanceScale = some g → 1 ≤ g ∧ g ≤ 20) ∧
       1 ≤ o.outputCompressionQuality.getD 85 ∧
       o.outputCompressionQuality.getD 85 ≤ 100 ∧
       o.aspect.getD "1:1" ∈ validImageAspects ∧
       (o.outputMimeType.getD "image/jpeg" = "image/jpeg" ∨
        o.outputMimeType.getD "image/jpeg" = "image/png"))) ∧
    ((o.numberOfImages.getD 1 < 1 ∨ 8 < o.numberOfImages.getD 1) →
      validateImageOptions o = .error "numberOfImages must be between 1 and 8") ∧
    (1 ≤ o.numberOfImages.getD 1 → o.numberOfImages.getD 1 ≤ 8 →
     (∃ g, o.guidanceScale = some g ∧ (g < 1 ∨ 20 < g)) →
      validateImageOptions o = .error "guidanceScale must be between 1 and 20") ∧
    (1 ≤ o.numberOfImages.getD 1 → o.numberOfImages.getD 1 ≤ 8 →
     (∀ g, o.guidanceScale = some g → 1 ≤ g ∧ g ≤ 20) →
     (o.outputCompressionQuality.getD 85 < 1 ∨ 100 < o.outputCompressionQuality.getD 85) →
      validateImageOptions o = .error "outputCompressionQuality must be between 1 and 100") ∧
    (1 ≤ o.numberOfImages.getD 1 → o.numberOfImages.getD 1 ≤ 8 →
     (∀ g, o.guidanceScale = some g → 1 ≤ g ∧ g ≤ 20) →
     1 ≤ o.outputCompressionQuality.getD 85 → o.outputCompressionQuality.getD 85 ≤ 100 →
     o.aspect.getD "1:1" ∉ validImageAspects →
      validateImageOptions o
        = .error "aspectRatio must be one of: 1:1, 3:4, 4:3, 9:16, 16:9") ∧
    (1 ≤ o.numberOfImages.getD 1 → o.numberOfImages.getD 1 ≤ 8 →
     (∀ g, o.guidanceScale = some g → 1 ≤ g ∧ g ≤ 20) →
     1 ≤ o.outputCompressionQuality.getD 85 → o.outputCompressionQuality.getD 85 ≤ 100 →
     o.aspect.getD "1:1" ∈ validImageAspects →
     ¬(o.outputMimeType.getD "image/jpeg" = "image/jpeg" ∨
       o.outputMimeType.getD "image/jpeg" = "image/png") →
      validateImageOptions o
        = .error "outputMimeType must be one of: image/jpeg, image/png") := by
  refine ⟨?_, fun h => vio_err_count h,
    fun h1 h2 h3 => vio_err_guidance h1 h2 h3,
    fun h1 h2 h3 h4 => vio_err_quality h1 h2 h3 h4,
    fun h1 h2 h3 h4 h5 h6 => vio_err_aspect h1 h2 h3 h4 h5 h6,
    fun h1 h2 h3 h4 h5 h6 h7 => vio_err_mime h1 h2 h3 h4 h5 h6 h7⟩
  constructor
  · intro h
    by_cases c1 : 1 ≤ o.numberOfImages.getD 1 ∧ o.numberOfImages.getD 1 ≤ 8
    case neg =>
      have hv : o.numberOfImages.getD 1 < 1 ∨ 8 < o.numberOfImages.getD 1 := by
        rcases not_and_or.mp c1 with hx | hx
        exacts [Or.inl (not_le.mp hx), Or.inr (not_le.mp hx)]
      rw [vio_err_count hv] at h
      simp at h
    by_cases c2 : ∀ g, o.guidanceScale = some g → 1 ≤ g ∧ g ≤ 20
    case neg =>
      have hv : ∃ g, o.guidanceScale = some g ∧ (g < 1 ∨ 20 < g) := by
        rcases not_forall.mp c2 with ⟨g, hg⟩
        rcases Classical.not_imp.mp hg with ⟨hsome, hrange⟩
        refine ⟨g, hsome, ?_⟩
        rcases not_and_or.mp hrange with hx | hx
        exacts [Or.inl (not_le.mp hx), Or.inr (not_le.mp hx)]
      rw [vio_err_guidance c1.1 c1.2 hv] at h
      simp at h
    by_cases c3 : 1 ≤ o.outputCompressionQuality.getD 85 ∧
        o.outputCompressionQuality.getD 85 ≤ 100
    case neg =>
      have hv : o.outputCompressionQuality.getD 85 < 1 ∨
          100 < o.outputCompressionQuality.getD 85 := by
        rcases not_and_or.mp c3 with hx | hx
        exacts [Or.inl (not_le.mp hx), Or.inr (not_le.mp hx)]
      rw [vio_err_quality c1.1 c1.2 c2 hv] at h
      simp at h
    by_cases c4 : o.aspect.getD "1:1" ∈ validImageAspects
    case neg =>
      rw [vio_err_aspect c1.1 c1.2 c2 c3.1 c3.2 c4] at h
      simp at h
    by_cases c5 : o.outputMimeType.getD "image/jpeg" = "image/jpeg" ∨
        o.outputMimeType.getD "image/jpeg" = "image/png"
    case neg =>
      rw [vio_err_mime c1.1 c1.2 c2 c3.1 c3.2 c4 c5] at h
      simp at h
    exact ⟨c1.1, c1.2, c2, c3.1, c3.2, c4, c5⟩
  · rintro ⟨hc1, hc2, hc3, hc4, hc5, hc6, hc7⟩
    exact vio_ok hc1 hc2 hc3 hc4 hc5 hc6 hc7

/-- Witness for claim C4 at a concrete input: a record with nine images
fails naming numberOfImages and its valid range (Scenario C analogue). -/
theorem C4_witness :
    validateImageOptions { numberOfImages := some 9 }
      = .error "numberOfImages must be between 1 and 8" :=
  (C4_validateImageOptions_characterization { numberOfImages := some 9 }).2.1
    (by norm_num)

section PollLoopRunLemmas

/-- If the first M refreshed snapshots are not done but still named, and
the next one is done, and the ceiling is not hit before then, the loop
returns that snapshot after exactly M + 1 refreshes and M + 1 sleeps. -/
theorem pollLoop_run_refreshes (refresh : Nat → VideosOperation) :
    ∀ (M fuel : Nat) (op : VideosOperation) (elapsed k : Nat),
      M + 1 < fuel →
      op.done = false → (op.name).isSome = true →
      (∀ j, j < M → (refresh (k + j)).done = false ∧ ((refresh (k + j)).name).isSome = true) →
      (refresh (k + M)).done = true →
      elapsed + M * pollInterval ≤ maxWaitTime →
      (pollLoop refresh fuel op elapsed k).outcome = .ok (refresh (k + M)) ∧
      (pollLoop refresh fuel op elapsed k).refreshes = M + 1 ∧
      (pollLoop refresh fuel op elapsed k).sleeps = M + 1 := by
  intro M
  induction M with
  | zero =>
      intro fuel op elapsed k hfuel hd hn hpre hdone helapsed
      obtain ⟨nm, hnm⟩ := Option.isSome_iff_exists.mp hn
      match fuel, hfuel with
      | g + 2, _ =>
        have ht : ¬ maxWaitTime < elapsed := by omega
        rw [pollLoop_step refresh (g + 1) op elapsed k nm hd ht hnm]
        rw [pollLoop_done refresh g (refresh k) (elapsed + pollInterval) (k + 1)
          (by simpa using hdone)]
        simp
  | succ M ih =>
      intro fuel op elapsed k hfuel hd hn hpre hdone helapsed
      obtain ⟨nm, hnm⟩ := Option.isSome_iff_exists.mp hn
      match fuel, hfuel with
      | f + 1, hfuel =>
        have hpos : 0 < pollInterval := by simp [pollInterval]
        have ht : ¬ maxWaitTime < elapsed := by nlinarith
        rw [pollLoop_step refresh f op elapsed k nm hd ht hnm]
        have h0 := hpre 0 (Nat.succ_pos M)
        have hrec := ih f (refresh k) (elapsed + pollInterval) (k + 1)
          (by omega)
          (by simpa using h0.1) (by simpa using h0.2)
          (by
            intro j hj
            have := hpre (j + 1) (by omega)
            have heq : k + (j + 1) = (k + 1) + j := by omega
            rw [heq] at this
            exact this)
          (by
            have heq : k + (M + 1) = (k + 1) + M := by omega
            rw [← heq]
            exact hdone)
          (by
            have : elapsed + (M + 1) * pollInterval
                = (elapsed + pollInterval) + M * pollInterval := by ring
            omega)
        have heq : (k + 1) + M = k + (M + 1) := by omega
        rw [heq] at hrec
        exact ⟨by simp [hrec.1], by simp [hrec.2.1], by simp [hrec.2.2]⟩

/-- If a refreshed snapshot arrives with no name while not done, and the
ceiling has not been crossed at the next check, the loop throws the
lost-handle error after exactly M + 1 refreshes (none after the nameless
snapshot) and one further sleep. -/
theorem pollLoop_run_lost (refresh : Nat → VideosOperation) :
    ∀ (M fuel : Nat) (op : VideosOperation) (elapsed k : Nat),
      M + 1 < fuel →
      op.done = false → (op.name).isSome = true →
      (∀ j, j < M → (refresh (k + j)).done = false ∧ ((refresh (k + j)).name).isSome = true) →
      (refresh (k + M)).done = false →
      (refresh (k + M)).name = none →
      elapsed + (M + 1) * pollInterval ≤ maxWaitTime →
      (pollLoop refresh fuel op elapsed k).outcome
        = .error "Operation name is not available for polling" ∧
      (pollLoop refresh fuel op elapsed k).refreshes = M + 1 ∧
      (pollLoop refresh fuel op elapsed k).sleeps = M + 2 := by
  intro M
  induction M with
  | zero =>
      intro fuel op elapsed k hfuel hd hn hpre hndone hname helapsed
      obtain ⟨nm, hnm⟩ := Option.isSome_iff_exists.mp hn
      match fuel, hfuel with
      | g + 2, _ =>
        have ht : ¬ maxWaitTime < elapsed := by omega
        rw [pollLoop_step refresh (g + 1) op elapsed k nm hd ht hnm]
        have ht2 : ¬ maxWaitTime < elapsed + pollInterval := by omega
        rw [pollLoop_lost refresh g (refresh k) (elapsed + pollInterval) (k + 1)
          (by simpa using hndone) ht2 (by simpa using hname)]
        simp
  | succ M ih =>
      intro fuel op elapsed k hfuel hd hn hpre hndone hname helapsed
      obtain ⟨nm, hnm⟩ := Option.isSome_iff_exists.mp hn
      match fuel, hfuel with
      | f + 1, hfuel =>
        have hpos : 0 < pollInterval := by simp [pollInterval]
        have ht : ¬ maxWaitTime < elapsed := by nlinarith
        rw [pollLoop_step refresh f op elapsed k nm hd ht hnm]
        have h0 := hpre 0 (Nat.succ_pos M)
        have hrec := ih f (refresh k) (elapsed + pollInterval) (k + 1)
          (by omega)
          (by simpa using h0.1) (by simpa using h0.2)
          (by
            intro j hj
            have := hpre (j + 1) (by omega)
            have heq : k + (j + 1) = (k + 1) + j := by omega
            rw [heq] at this
            exact this)
          (by
            have heq : k + (M + 1) = (k + 1) + M := by omega
            rw [← heq]
            exact hndone)
          (by
            have heq : k + (M + 1) = (k + 1) + M := by omega
            rw [← heq]
            exact hname)
          (by
            have : elapsed + (M + 1 + 1) * pollInterval
                = (elapsed + pollInterval) + (M + 1) * pollInterval := by ring
            omega)
        exact ⟨by simp [hrec.1], by simp [hrec.2.1], by simp [hrec.2.2]⟩

/-- If every refreshed snapshot is not done and still named, the loop
ends in the timeout error, and every refresh it performed happened at an
elapsed time of at most the ceiling plus one poll interval. -/
theorem pollLoop_neverDone (refresh : Nat → VideosOperation)
    (hrd : ∀ n, (refresh n).done = false)
    (hrn : ∀ n, ((refresh n).name).isSome = true) :
    ∀ (fuel : Nat) (op : VideosOperation) (elapsed k : Nat),
      op.done = false → (op.name).isSome = true →
      maxWaitTime < elapsed + fuel * pollInterval →
      (pollLoop refresh (fuel + 1) op elapsed k).outcome
        = .error "Video generation timed out after 10 minutes" ∧
      ∀ t ∈ (pollLoop refresh (fuel + 1) op elapsed k).refreshTimes,
        t ≤ maxWaitTime + pollInterval := by
  intro fuel
  induction fuel with
  | zero =>
      intro op elapsed k hd hn hceil
      simp only [Nat.zero_mul, Nat.add_zero] at hceil
      rw [pollLoop_timeout refresh 0 op elapsed k hd hceil]
      simp
  | succ fuel ih =>
      intro op elapsed k hd hn hceil
      by_cases ht : maxWaitTime < elapsed
      · rw [pollLoop_timeout refresh (fuel + 1) op elapsed k hd ht]
        simp
      · obtain ⟨nm, hnm⟩ := Option.isSome_iff_exists.mp hn
        rw [pollLoop_step refresh (fuel + 1) op elapsed k nm hd ht hnm]
        have hrec := ih (refresh k) (elapsed + pollInterval) (k + 1)
          (hrd k) (hrn k)
          (by
            have : elapsed + (fuel + 1) * pollInterval
                = (elapsed + pollInterval) + fuel * pollInterval := by ring
            omega)
        refine ⟨by simp [hrec.1], ?_⟩
        intro t htmem
        simp only [List.mem_cons] at htmem
        rcases htmem with h | h
        · omega
        · exact hrec.2 t h

end PollLoopRunLemmas

/-- Claim C5: a generation call whose prompt is empty or whitespace-only,
or longer than the kind-specific limit (4000 characters for image, 1000
for video), or whose options violate a validation rule, fails before the
submission network call (submitCalls = 0, and for video also no refresh
and no sleep); the prompt checks run before the kind-specific option
checks, so an invalid prompt wins even when the options are also invalid. -/
theorem C5_validation_before_network :
    (∀ (env : ImageEnv) (prompt : String) (o : ImageGenerationOptions),
      (jsTrim prompt).length = 0 →
        generateImage env prompt o =
          { result := .error "Prompt is required and must be a non-empty string",
            submitCalls := 0 }) ∧
    (∀ (env : ImageEnv) (prompt : String) (o : ImageGenerationOptions),
      (jsTrim prompt).length ≠ 0 → 4000 < prompt.length →
        generateImage env prompt o =
          { result := .error "Prompt must be less than 4000 characters",
            submitCalls := 0 }) ∧
    (∀ (env : ImageEnv) (prompt : String) (o : ImageGenerationOptions) (e : String),
      (jsTrim prompt).length ≠ 0 → prompt.length ≤ 4000 →
      validateImageOptions o = .error e →
        generateImage env prompt o = { result := .error e, submitCalls := 0 }) ∧
    (∀ (env : ProviderBehavior) (prompt : String) (o : VideoGenerationOptions),
      (jsTrim prompt).length = 0 →
        generateVideo env prompt o =
          { result := .error "Prompt is required and must be a non-empty string",
            submitCalls := 0, refreshes := 0, sleeps := 0, refreshTimes := [] }) ∧
    (∀ (env : ProviderBehavior) (prompt : String) (o : VideoGenerationOptions),
      (jsTrim prompt).length ≠ 0 → 1000 < prompt.length →
        generateVideo env prompt o =
          { result := .error "Prompt must be less than 1000 characters for video generation",
            submitCalls := 0, refreshes := 0, sleeps := 0, refreshTimes := [] }) ∧
    (∀ (env : ProviderBehavior) (prompt : String) (o : VideoGenerationOptions) (e : String),
      (jsTrim prompt).length ≠ 0 → prompt.length ≤ 1000 →
      validateVideoOptions o = .error e →
        generateVideo env prompt o =
          { result := .error e, submitCalls := 0, refreshes := 0, sleeps := 0,
            refreshTimes := [] }) := by
  refine ⟨?_, ?_, ?_, ?_, ?_, ?_⟩
  · intro env prompt o hp
    unfold generateImage
    rw [if_pos hp]
  · intro env prompt o hp hl
    unfold generateImage
    rw [if_neg hp, if_pos hl]
  · intro env prompt o e hp hl hv
    unfold generateImage
    rw [if_neg hp, if_neg (by omega), hv]
  · intro env prompt o hp
    unfold generateVideo
    rw [if_pos hp]
  · intro env prompt o hp hl
    unfold generateVideo
    rw [if_neg hp, if_pos hl]
  · intro env prompt o e hp hl hv
    unfold generateVideo
    rw [if_neg hp, if_neg (by omega), hv]

/-- Witness for claim C5 at concrete inputs: a whitespace-only prompt
fails the image call with the prompt error even though the options are
also invalid, and an options violation fails the video call, both with
no submission call. -/
theorem C5_witness :
    generateImage { generatedImages := some [] } "   " { numberOfImages := some 0 }
      = { result := .error "Prompt is required and must be a non-empty string",
          submitCalls := 0 } ∧
    generateVideo { submitResult := {}, refresh := fun _ => {} } "a dog"
        { durationSeconds := some 1 }
      = { result := .error "durationSeconds must be between 2 and 10",
          submitCalls := 0, refreshes := 0, sleeps := 0, refreshTimes := [] } :=
  ⟨C5_validation_before_network.1 { generatedImages := some [] } "   "
      { numberOfImages := some 0 } (by decide),
   C5_validation_before_network.2.2.2.2.2 { submitResult := {}, refresh := fun _ => {} }
      "a dog" { durationSeconds := some 1 }
      "durationSeconds must be between 2 and 10" (by decide) (by decide) (by decide)⟩

section RequestLemmas

theorem pollFuel_eq : pollFuel = 41 + 1 := by decide

theorem runVideoRequest_error (env : ProviderBehavior) (e : String)
    (h : (runPollLoop env).outcome = .error e) :
    runVideoRequest env =
      { result := .error ("Video generation failed: " ++ e), submitCalls := 1,
        refreshes := (runPollLoop env).refreshes, sleeps := (runPollLoop env).sleeps,
        refreshTimes := (runPollLoop env).refreshTimes } := by
  simp only [runVideoRequest]
  rw [h]

theorem runVideoRequest_finish_error (env : ProviderBehavior) (op : VideosOperation)
    (e : String) (h : (runPollLoop env).outcome = .ok op)
    (hf : finishVideoOperation op = .error e) :
    runVideoRequest env =
      { result := .error ("Video generation failed: " ++ e), submitCalls := 1,
        refreshes := (runPollLoop env).refreshes, sleeps := (runPollLoop env).sleeps,
        refreshTimes := (runPollLoop env).refreshTimes } := by
  simp only [runVideoRequest, h, hf]

theorem runVideoRequest_finish_ok (env : ProviderBehavior) (op : VideosOperation)
    (bufs : List (List Nat)) (h : (runPollLoop env).outcome = .ok op)
    (hf : finishVideoOperation op = .ok bufs) :
    runVideoRequest env =
      { result := .ok bufs, submitCalls := 1,
        refreshes := (runPollLoop env).refreshes, sleeps := (runPollLoop env).sleeps,
        refreshTimes := (runPollLoop env).refreshTimes } := by
  simp only [runVideoRequest, h, hf]

theorem finishVideoOperation_providerError (op : VideosOperation) (d : String)
    (h : op.error = some d) :
    finishVideoOperation op = .error ("Video generation failed: " ++ d) := by
  unfold finishVideoOperation
  rw [h]

theorem finishVideoOperation_empty (op : VideosOperation) (h : op.error = none)
    (h2 : Option.bind op.response VideoResponse.generatedVideos = none ∨
          Option.bind op.response VideoResponse.generatedVideos = some []) :
    finishVideoOperation op = .error "No videos were generated" := by
  unfold finishVideoOperation
  rw [h]
  rcases h2 with h2 | h2 <;> simp [h2]

theorem finishVideoOperation_ok (op : VideosOperation) (vids : List GeneratedVideo)
    (bufs : List (List Nat)) (h : op.error = none)
    (h2 : Option.bind op.response VideoResponse.generatedVideos = some vids)
    (h3 : vids ≠ []) (h4 : collectVideoBuffers vids = .ok bufs) (h5 : bufs ≠ []) :
    finishVideoOperation op = .ok bufs := by
  simp [finishVideoOperation, h, h2, h4, List.length_eq_zero, h3, h5]

theorem collectVideoBuffers_allInline :
    ∀ vids : List GeneratedVideo,
      (∀ gv ∈ vids, ∃ b, gv.video = some { uri := none, videoBytes := some b }) →
      ∃ bufs, collectVideoBuffers vids = .ok bufs ∧ bufs.length = vids.length := by
  intro vids
  induction vids with
  | nil => intro _; exact ⟨[], rfl, rfl⟩
  | cons gv rest ih =>
      intro h
      obtain ⟨b, hb⟩ := h gv (List.mem_cons_self gv rest)
      obtain ⟨bufs, hbufs, hlen⟩ := ih (fun x hx => h x (List.mem_cons_of_mem gv hx))
      refine ⟨decodeBase64 b :: bufs, ?_, by simp [hlen]⟩
      simp [collectVideoBuffers, hb, hbufs, Except.map]

end RequestLemmas

/-- Claim C1 counterexample: on the Scenario D result set (one item with
only a remote locator, one with valid inline bytes) generateVideo does
not succeed with one Artifact; the uri item reaches downloadGcsFile,
which throws, and the whole call fails. -/
theorem C1_counterexample :
    (generateVideo scenarioDEnv "a cat" {}).result =
      .error "Video generation failed: GCS file download not implemented. Cannot download from gs://bucket/video.mp4" := by
  decide

/-- Claim C1 as amended: when the completed result set holds a
remote-locator item followed by a valid inline item, generateVideo fails
with the GCS-download-not-implemented error instead of skipping the
remote item; the inline sibling is not returned. -/
theorem C1_uri_item_is_fatal (env : ProviderBehavior) (prompt : String)
    (o : VideoGenerationOptions) (u b : String)
    (hp : (jsTrim prompt).length ≠ 0) (hl : prompt.length ≤ 1000)
    (hv : validateVideoOptions o = .ok ())
    (hdone : env.submitResult.done = true)
    (herr : env.submitResult.error = none)
    (hvids : Option.bind env.submitResult.response VideoResponse.generatedVideos =
      some [{ video := some { uri := some u, videoBytes := none } },
            { video := some { uri := none, videoBytes := some b } }]) :
    (generateVideo env prompt o).result =
      .error ("Video generation failed: "
        ++ ("GCS file download not implemented. Cannot download from " ++ u)) := by
  rw [generateVideo_validated env prompt o hp hl hv]
  have houtcome : (runPollLoop env).outcome = .ok env.submitResult := by
    unfold runPollLoop
    rw [pollFuel_eq, pollLoop_done env.refresh 41 env.submitResult 0 0 hdone]
  have hfin : finishVideoOperation env.submitResult =
      .error ("GCS file download not implemented. Cannot download from " ++ u) := by
    simp [finishVideoOperation, herr, hvids, collectVideoBuffers]
  rw [runVideoRequest_finish_error env env.submitResult _ houtcome hfin]

/-- Witness for the amended claim C1 at the concrete Scenario D inputs. -/
theorem C1_witness :
    (generateVideo scenarioDEnv "a cat" {}).result =
      .error "Video generation failed: GCS file download not implemented. Cannot download from gs://bucket/video.mp4" :=
  C1_uri_item_is_fatal scenarioDEnv "a cat" {} "gs://bucket/video.mp4" "AAAA"
    (by decide) (by decide) (by decide) rfl rfl rfl

/-- Claim C2 counterexample: with a provider that never reports done,
the run does end in the timeout error, but a status refresh is performed
at elapsed time 615000 ms, which is after the 600000 ms ceiling has been
crossed, contradicting that no refresh happens past the ceiling. -/
theorem C2_counterexample :
    (generateVideo stalledEnv "a dog" {}).result =
      .error "Video generation failed: Video generation timed out after 10 minutes" ∧
    615000 ∈ (generateVideo stalledEnv "a dog" {}).refreshTimes ∧
    maxWaitTime < 615000 := by
  decide

/-- Claim C2 as amended: if no refreshed snapshot ever reports done, the
call fails with the timeout error, and every refresh happens at an
elapsed time of at most the ceiling plus one poll interval (the
pre-refresh check bounds the previous instant, so the last refresh can
land up to 15 seconds past the 600 second ceiling, and none happen after
the timeout is raised). -/
theorem C2_timeout_refresh_window (env : ProviderBehavior) (prompt : String)
    (o : VideoGenerationOptions)
    (hp : (jsTrim prompt).length ≠ 0) (hl : prompt.length ≤ 1000)
    (hv : validateVideoOptions o = .ok ())
    (hsd : env.submitResult.done = false)
    (hsn : (env.submitResult.name).isSome = true)
    (hrd : ∀ n, (env.refresh n).done = false)
    (hrn : ∀ n, ((env.refresh n).name).isSome = true) :
    (generateVideo env prompt o).result =
      .error "Video generation failed: Video generation timed out after 10 minutes" ∧
    ∀ t ∈ (generateVideo env prompt o).refreshTimes, t ≤ maxWaitTime + pollInterval := by
  rw [generateVideo_validated env prompt o hp hl hv]
  have hloop := pollLoop_neverDone env.refresh hrd hrn 41 env.submitResult 0 0 hsd hsn
    (by simp [maxWaitTime, pollInterval])
  have houtcome : (runPollLoop env).outcome
      = .error "Video generation timed out after 10 minutes" := by
    unfold runPollLoop
    rw [pollFuel_eq]
    exact hloop.1
  have htimes : ∀ t ∈ (runPollLoop env).refreshTimes, t ≤ maxWaitTime + pollInterval := by
    unfold runPollLoop
    rw [pollFuel_eq]
    exact hloop.2
  rw [runVideoRequest_error env _ houtcome]
  exact ⟨rfl, htimes⟩

/-- Witness for the amended claim C2 at the concrete stalled provider. -/
theorem C2_witness :
    (generateVideo stalledEnv "a dog" {}).result =
      .error "Video generation failed: Video generation timed out after 10 minutes" :=
  (C2_timeout_refresh_window stalledEnv "a dog" {} (by decide) (by decide) (by decide)
    rfl rfl (fun _ => rfl) (fun _ => rfl)).1

/-- Claim C6: when the submitted operation is already done at loop
entry, the call performs zero refreshes and zero sleeps; and when the
first N - 1 refreshed snapshots are not done (still named) and the N-th
is done with a populated all-inline result, within the timeout ceiling,
the call succeeds after exactly N refreshes and no more. -/
theorem C6_refresh_counts :
    (∀ (env : ProviderBehavior) (prompt : String) (o : VideoGenerationOptions),
      (jsTrim prompt).length ≠ 0 → prompt.length ≤ 1000 →
      validateVideoOptions o = .ok () →
      env.submitResult.done = true →
      (generateVideo env prompt o).refreshes = 0 ∧
      (generateVideo env prompt o).sleeps = 0) ∧
    (∀ (env : ProviderBehavior) (prompt : String) (o : VideoGenerationOptions)
       (N : Nat) (vids : List GeneratedVideo),
      (jsTrim prompt).length ≠ 0 → prompt.length ≤ 1000 →
      validateVideoOptions o = .ok () →
      env.submitResult.done = false → (env.submitResult.name).isSome = true →
      1 ≤ N → (N - 1) * pollInterval ≤ maxWaitTime →
      (∀ j, j < N - 1 → (env.refresh j).done = false ∧ ((env.refresh j).name).isSome = true) →
      (env.refresh (N - 1)).done = true →
      (env.refresh (N - 1)).error = none →
      Option.bind (env.refresh (N - 1)).response VideoResponse.generatedVideos = some vids →
      vids ≠ [] →
      (∀ gv ∈ vids, ∃ b, gv.video = some { uri := none, videoBytes := some b }) →
      (∃ bufs, (generateVideo env prompt o).result = .ok bufs) ∧
      (generateVideo env prompt o).refreshes = N) := by
  constructor
  · intro env prompt o hp hl hv hdone
    rw [generateVideo_validated env prompt o hp hl hv]
    have htrace : runPollLoop env =
        { outcome := .ok env.submitResult, refreshes := 0, sleeps := 0, refreshTimes := [] } := by
      unfold runPollLoop
      rw [pollFuel_eq, pollLoop_done env.refresh 41 env.submitResult 0 0 hdone]
    rcases hfin : finishVideoOperation env.submitResult with e | bufs
    · rw [runVideoRequest_finish_error env env.submitResult e (by rw [htrace]) hfin, htrace]
      exact ⟨rfl, rfl⟩
    · rw [runVideoRequest_finish_ok env env.submitResult bufs (by rw [htrace]) hfin, htrace]
      exact ⟨rfl, rfl⟩
  · intro env prompt o N vids hp hl hv hsd hsn hN hceil hpre hdone herr hvids hne hin
    rw [generateVideo_validated env prompt o hp hl hv]
    obtain ⟨M, rfl⟩ : ∃ M, N = M + 1 := ⟨N - 1, by omega⟩
    simp only [Nat.add_sub_cancel] at hceil hpre hdone herr hvids
    have hfuel : M + 1 < pollFuel := by
      rw [pollFuel_eq]
      have : pollInterval = 15000 := by decide
      rw [this] at hceil
      have : maxWaitTime = 600000 := by decide
      omega
    have hloop := pollLoop_run_refreshes env.refresh M pollFuel env.submitResult 0 0
      hfuel hsd hsn (by simpa using hpre) (by simpa using hdone) (by simpa using hceil)
    have houtcome : (runPollLoop env).outcome = .ok (env.refresh M) := by
      unfold runPollLoop
      simpa using hloop.1
    obtain ⟨bufs, hbufs, hlen⟩ := collectVideoBuffers_allInline vids hin
    have hbne : bufs ≠ [] := by
      intro hb
      rw [hb] at hlen
      exact hne (List.length_eq_zero.mp hlen.symm)
    have hfin : finishVideoOperation (env.refresh M) = .ok bufs :=
      finishVideoOperation_ok (env.refresh M) vids bufs herr hvids hne hbufs hbne
    rw [runVideoRequest_finish_ok env (env.refresh M) bufs houtcome hfin]
    refine ⟨⟨bufs, rfl⟩, ?_⟩
    show (runPollLoop env).refreshes = M + 1
    unfold runPollLoop
    simpa using hloop.2.1

/-- Witness for claim C6 at concrete inputs: an already-done submission
polls zero times, and a provider that finishes on the second refresh is
refreshed exactly twice. -/
theorem C6_witness :
    (generateVideo scenarioDEnv "a cat" {}).refreshes = 0 ∧
    (generateVideo twoStepEnv "a dog" {}).refreshes = 2 := by
  constructor
  · exact (C6_refresh_counts.1 scenarioDEnv "a cat" {} (by decide) (by decide)
      (by decide) rfl).1
  · refine (C6_refresh_counts.2 twoStepEnv "a dog" {} 2 [inlineVideo] (by decide)
      (by decide) (by decide) rfl rfl (by omega) (by decide) ?_ rfl rfl rfl
      (by simp) ?_).2
    · intro j hj
      have : j = 0 := by omega
      subst this
      exact ⟨rfl, rfl⟩
    · intro gv hgv
      rw [List.mem_singleton] at hgv
      subst hgv
      exact ⟨"AAAA", rfl⟩

/-- Claim C7: when the poll loop exits with a done snapshot, a populated
error field makes the call fail with the provider error details
(regardless of the result set, so the error check precedes the result
check), and with no error an absent or empty result set makes it fail
with the empty-result error. -/
theorem C7_done_classification (env : ProviderBehavior) (prompt : String)
    (o : VideoGenerationOptions) (op : VideosOperation) (d : String)
    (hp : (jsTrim prompt).length ≠ 0) (hl : prompt.length ≤ 1000)
    (hv : validateVideoOptions o = .ok ())
    (hloop : (runPollLoop env).outcome = .ok op) :
    (op.error = some d →
      (generateVideo env prompt o).result =
        .error ("Video generation failed: " ++ ("Video generation failed: " ++ d))) ∧
    (op.error = none →
     (Option.bind op.response VideoResponse.generatedVideos = none ∨
      Option.bind op.response VideoResponse.generatedVideos = some []) →
      (generateVideo env prompt o).result =
        .error "Video generation failed: No videos were generated") := by
  constructor
  · intro herr
    rw [generateVideo_validated env prompt o hp hl hv,
      runVideoRequest_finish_error env op _ hloop
        (finishVideoOperation_providerError op d herr)]
  · intro herr hempty
    rw [generateVideo_validated env prompt o hp hl hv,
      runVideoRequest_finish_error env op _ hloop
        (finishVideoOperation_empty op herr hempty)]
    rfl

/-- Witness for claim C7 at a concrete input: a done operation carrying
a populated error makes the call fail with the provider error. -/
theorem C7_witness :
    (generateVideo erroredEnv "a cat" {}).result =
      .error "Video generation failed: Video generation failed: quota exceeded" :=
  (C7_done_classification erroredEnv "a cat" {} erroredOp "quota exceeded"
    (by decide) (by decide) (by decide) (by decide)).1 rfl

/-- Claim C8 counterexample: the 41st refreshed snapshot (index 40)
arrives with no name while not done, after the elapsed-time ceiling is
already crossed at the next check; the loop then fails with the timeout
error, not the lost-handle error, although the handle became unavailable
while the operation was not done. -/
theorem C8_counterexample :
    (lateNamelessEnv.refresh 40).name = none ∧
    (lateNamelessEnv.refresh 40).done = false ∧
    (generateVideo lateNamelessEnv "a dog" {}).refreshes = 41 ∧
    (generateVideo lateNamelessEnv "a dog" {}).result =
      .error "Video generation failed: Video generation timed out after 10 minutes" := by
  decide

/-- Claim C8 as amended: a nameless not-done snapshot stops all further
refreshes; the loop fails in the same iteration (after one more sleep)
with the lost-handle error, provided the timeout ceiling has not been
crossed at that check, in which case the timeout error takes precedence.
The first conjunct covers a nameless submission snapshot, the second a
handle lost at the M-th refresh. -/
theorem C8_lost_handle :
    (∀ (env : ProviderBehavior) (prompt : String) (o : VideoGenerationOptions),
      (jsTrim prompt).length ≠ 0 → prompt.length ≤ 1000 →
      validateVideoOptions o = .ok () →
      env.submitResult.done = false → env.submitResult.name = none →
      (generateVideo env prompt o).result =
        .error "Video generation failed: Operation name is not available for polling" ∧
      (generateVideo env prompt o).refreshes = 0 ∧
      (generateVideo env prompt o).sleeps = 1) ∧
    (∀ (env : ProviderBehavior) (prompt : String) (o : VideoGenerationOptions) (M : Nat),
      (jsTrim prompt).length ≠ 0 → prompt.length ≤ 1000 →
      validateVideoOptions o = .ok () →
      env.submitResult.done = false → (env.submitResult.name).isSome = true →
      (∀ j, j < M → (env.refresh j).done = false ∧ ((env.refresh j).name).isSome = true) →
      (env.refresh M).done = false →
      (env.refresh M).name = none →
      (M + 1) * pollInterval ≤ maxWaitTime →
      (generateVideo env prompt o).result =
        .error "Video generation failed: Operation name is not available for polling" ∧
      (generateVideo env prompt o).refreshes = M + 1) := by
  constructor
  · intro env prompt o hp hl hv hsd hsn
    rw [generateVideo_validated env prompt o hp hl hv]
    have htrace : runPollLoop env =
        { outcome := .error "Operation name is not available for polling",
          refreshes := 0, sleeps := 1, refreshTimes := [] } := by
      unfold runPollLoop
      rw [pollFuel_eq, pollLoop_lost env.refresh 41 env.submitResult 0 0 hsd
        (by omega) hsn]
    rw [runVideoRequest_error env _ (by rw [htrace]), htrace]
    exact ⟨rfl, rfl, rfl⟩
  · intro env prompt o M hp hl hv hsd hsn hpre hmd hmn hceil
    rw [generateVideo_validated env prompt o hp hl hv]
    have hfuel : M + 1 < pollFuel := by
      rw [pollFuel_eq]
      have h1 : pollInterval = 15000 := by decide
      have h2 : maxWaitTime = 600000 := by decide
      rw [h1, h2] at hceil
      omega
    have hloop := pollLoop_run_lost env.refresh M pollFuel env.submitResult 0 0
      hfuel hsd hsn (by simpa using hpre) (by simpa using hmd) (by simpa using hmn)
      (by simpa using hceil)
    have houtcome : (runPollLoop env).outcome
        = .error "Operation name is not available for polling" := by
      unfold runPollLoop
      simpa using hloop.1
    rw [runVideoRequest_error env _ houtcome]
    refine ⟨rfl, ?_⟩
    show (runPollLoop env).refreshes = M + 1
    unfold runPollLoop
    simpa using hloop.2.1

/-- Witness for the amended claim C8 at a concrete input: a nameless
submission snapshot makes the call fail with the lost-handle error after
zero refreshes. -/
theorem C8_witness :
    (generateVideo namelessEnv "a dog" {}).result =
      .error "Video generation failed: Operation name is not available for polling" :=
  (C8_lost_handle.1 namelessEnv "a dog" {} (by decide) (by decide) (by decide)
    rfl rfl).1

/-- Claim C9: normalization of a result item is deterministic and
idempotent; two runs over items carrying the same inline base64 payload
produce the same decoded Artifact, equal to decodeBase64 of the payload,
for the video converter and the image converter alike. -/
theorem C9_normalize_deterministic (gv gv2 : GeneratedVideo) (gi : GeneratedImage)
    (b : String)
    (h : gv.video = some { uri := none, videoBytes := some b })
    (h2 : gv2.video = some { uri := none, videoBytes := some b })
    (hgi : gi.image = some { gcsUri := none, imageBytes := some b }) :
    collectVideoBuffers [gv] = .ok [decodeBase64 b] ∧
    collectVideoBuffers [gv2] = .ok [decodeBase64 b] ∧
    collectVideoBuffers [gv] = collectVideoBuffers [gv2] ∧
    collectImageBuffers [gi] = .ok [decodeBase64 b] := by
  have e1 : collectVideoBuffers [gv] = .ok [decodeBase64 b] := by
    simp [collectVideoBuffers, h, Except.map]
  have e2 : collectVideoBuffers [gv2] = .ok [decodeBase64 b] := by
    simp [collectVideoBuffers, h2, Except.map]
  refine ⟨e1, e2, by rw [e1, e2], ?_⟩
  simp [collectImageBuffers, hgi, Except.map]

/-- Witness for claim C9 at a concrete inline item. -/
theorem C9_witness :
    collectVideoBuffers [inlineVideo] = .ok [decodeBase64 "AAAA"] :=
  (C9_normalize_deterministic inlineVideo inlineVideo inlineImage "AAAA"
    rfl rfl rfl).1

/-- Claim C10: any image result item carrying a remote-storage locator
makes the whole image batch fail with the GCS error, even when sibling
items hold valid inline bytes, whereas an item with no image data at all
is skipped without failing the batch. -/
theorem C10_image_gcs_fatal :
    (∀ imgs : List GeneratedImage,
      (∃ gi ∈ imgs, ∃ d, gi.image = some d ∧ (ImageData.gcsUri d).isSome = true) →
      collectImageBuffers imgs =
        .error "GCS URI handling not implemented. Please avoid using outputGcsUri.") ∧
    (∀ (gi : GeneratedImage) (rest : List GeneratedImage), gi.image = none →
      collectImageBuffers (gi :: rest) = collectImageBuffers rest) ∧
    (∀ (env : ImageEnv) (prompt : String) (o : ImageGenerationOptions)
       (imgs : List GeneratedImage),
      (jsTrim prompt).length ≠ 0 → prompt.length ≤ 4000 →
      validateImageOptions o = .ok () →
      env.generatedImages = some imgs → imgs ≠ [] →
      (∃ gi ∈ imgs, ∃ d, gi.image = some d ∧ (ImageData.gcsUri d).isSome = true) →
      (generateImage env prompt o).result =
        .error "Image generation failed: GCS URI handling not implemented. Please avoid using outputGcsUri.") := by
  have hfatal : ∀ imgs : List GeneratedImage,
      (∃ gi ∈ imgs, ∃ d, gi.image = some d ∧ (ImageData.gcsUri d).isSome = true) →
      collectImageBuffers imgs =
        .error "GCS URI handling not implemented. Please avoid using outputGcsUri." := by
    intro imgs
    induction imgs with
    | nil => rintro ⟨gi, hgi, -⟩; exact absurd hgi (List.not_mem_nil gi)
    | cons head rest ih =>
        rintro ⟨gi, hmem, d, hival, hsome⟩
        rcases List.mem_cons.mp hmem with rfl | hmem2
        · obtain ⟨u, hu⟩ := Option.isSome_iff_exists.mp hsome
          simp [collectImageBuffers, hival, hu]
        · have herr := ih ⟨gi, hmem2, d, hival, hsome⟩
          cases hh : head.image with
          | none => simpa [collectImageBuffers, hh] using herr
          | some hd =>
              cases hg : hd.gcsUri with
              | some u => simp [collectImageBuffers, hh, hg]
              | none =>
                  cases hby : hd.imageBytes with
                  | some byts =>
                      simp [collectImageBuffers, hh, hg, hby, herr, Except.map]
                  | none => simpa [collectImageBuffers, hh, hg, hby] using herr
  refine ⟨hfatal, ?_, ?_⟩
  · intro gi rest h
    simp [collectImageBuffers, h]
  · intro env prompt o imgs hp hl hv henv hne hex
    rw [generateImage_validated env prompt o hp hl hv]
    simp only [runImageRequest, henv]
    rw [if_neg (by simpa [List.length_eq_zero] using hne), hfatal imgs hex]
    rfl

/-- Witness for claim C10 at a concrete input: a batch with an inline
item followed by a gcsUri item fails as a whole with the GCS error. -/
theorem C10_witness :
    (generateImage { generatedImages := some [inlineImage, gcsImage] } "a cat" {}).result =
      .error "Image generation failed: GCS URI handling not implemented. Please avoid using outputGcsUri." :=
  C10_image_gcs_fatal.2.2 { generatedImages := some [inlineImage, gcsImage] }
    "a cat" {} [inlineImage, gcsImage] (by decide) (by decide) (by decide) rfl
    (by simp)
    ⟨gcsImage, by simp, { gcsUri := some "gs://bucket/image.png" }, rfl, rfl⟩

end MCPVertex
